import Mathlib

/-!
# Verification of the webrtc-demo signaling server (`server.py`)

A shallow embedding of the core logic of `server.py`:

* `ColorBarsVideoTrack` — the synthetic color-bars video source (`recv`);
* `detect_nat_type` — the startup NAT classifier;
* `offer` — the `POST /offer` signaling handler, including the session
  registry `pcs` and its failure paths;
* `on_ice_connection_state_change` — the per-session connection-state
  notification handler;
* `on_shutdown` — the process shutdown hook.

External collaborators (aiortc, aioice, sockets, the HTTP framework) are
modelled as environments supplying the data the Python code reads from
them and the success/failure of each awaited call, so that every control
path of the Python source is a path of the Lean function.
-/

namespace WebrtcDemo

/-! ## Synthetic Pattern Video Source (`ColorBarsVideoTrack`) -/

namespace ColorBarsVideoTrack

/-- A pixel value: three 8-bit channels, stored as naturals (numpy `uint8`). -/
structure RGB where
  r : Nat
  g : Nat
  b : Nat
  deriving DecidableEq, Repr

/-- An image is a function from (row, column) to pixel value; the frame
produced by `recv` is meaningful on rows `< height` and columns `< width`. -/
def Img : Type := Nat → Nat → RGB

/-- Frame width: `width, height = 640, 480`. -/
def width : Nat := 640

/-- Frame height: `width, height = 640, 480`. -/
def height : Nat := 480

/-- `bar_width = width // 7`. -/
def bar_width : Nat := width / 7

/-- The seven bar colors, in source order:
white, yellow, cyan, green, magenta, red, blue. -/
def colors : List RGB :=
  [⟨255, 255, 255⟩, ⟨255, 255, 0⟩, ⟨0, 255, 255⟩, ⟨0, 255, 0⟩,
   ⟨255, 0, 255⟩, ⟨255, 0, 0⟩, ⟨0, 0, 255⟩]

/-- `img[:, lo:hi] = c` — assign color `c` to every column in `[lo, hi)`
(numpy slice assignment over all rows). -/
def setCols (img : Img) (lo hi : Nat) (c : RGB) : Img :=
  fun row col => if lo ≤ col ∧ col < hi then c else img row col

/-- `np.zeros((height, width, 3), dtype=np.uint8)`. -/
def zeros : Img := fun _ _ => ⟨0, 0, 0⟩

/-- The image after the color-bars loop
(`for i, color in enumerate(colors): ... img[:, x_start:x_end] = color`):
bar `i` spans `[i*bar_width, (i+1)*bar_width)` for `i < 6`, and bar 6 spans
up to `width`. -/
def barsImg : Img :=
  colors.enum.foldl
    (fun img ic =>
      let x_start := ic.1 * bar_width
      let x_end := if ic.1 < 6 then x_start + bar_width else width
      setCols img x_start x_end ic.2)
    zeros

/-- `indicator_pos = (self.counter % width)`. -/
def indicator_pos (counter : Nat) : Nat := counter % width

/-- The frame body built by one `recv` call at a given counter value:
bars, then `img[:, indicator_pos:indicator_pos+5] = [0, 0, 0]`
(the numpy slice clips at the right edge of the frame). -/
def recvImg (counter : Nat) : Img :=
  setCols barsImg (indicator_pos counter)
    (min (indicator_pos counter + 5) width) ⟨0, 0, 0⟩

/-- One `recv` call: produce the frame for the current counter, then
`self.counter += 5`. -/
def recv (counter : Nat) : Img × Nat := (recvImg counter, counter + 5)

/-- The counter value held by the track before its `n`-th call (0-indexed);
`self.counter = 0` at construction. -/
def counterAfter : Nat → Nat
  | 0 => 0
  | n + 1 => (recv (counterAfter n)).2

/-- The frame the track produces at its `n`-th call (0-indexed). -/
def frameAt (n : Nat) : Img := (recv (counterAfter n)).1

end ColorBarsVideoTrack

/-! ## NAT Classifier (`detect_nat_type`)

The classifier talks to the network (a throwaway UDP socket and an
`aioice.Connection` probe).  The environment `ProbeEnv` supplies what those
external calls return: whether the local-IP lookup raises, whether
candidate gathering raises, the gathered candidate list, and whether
`connection.close()` raises.  `detect_nat_type` then follows the source's
`try/except` control flow exactly, additionally recording whether the
probe connection was opened and whether `connection.close()` was invoked. -/

/-- One ICE candidate as read by the classifier loop
(`candidate.type`, `candidate.host`, `candidate.port`). -/
structure Candidate where
  ctype : String
  host : String
  port : Nat
  deriving DecidableEq, Repr

/-- The dictionary stored into the global `server_nat_info`.  The success
branch stores `has_srflx` and no `error` key; the except branch stores an
`error` key and no `has_srflx` key. -/
structure NatInfo where
  local_ip : String
  public_ip : String
  nat_type : String
  nat_category : String
  has_srflx : Option Bool
  err_detail : Option String
  deriving DecidableEq, Repr

/-- What the external world does during one run of `detect_nat_type`:
the result of the local-IP socket steps, the result of
`connection.gather_candidates()`, the candidate list
`connection.local_candidates`, and the result of `connection.close()`. -/
structure ProbeEnv where
  localIpResult : Except String String
  gatherResult : Except String Unit
  candidates : List Candidate
  closeResult : Except String Unit
  deriving Repr

/-- Outcome of one run of `detect_nat_type`: the written `server_nat_info`,
whether the `aioice.Connection` was constructed, and whether
`connection.close()` was invoked.  The function always returns (the
`except` clause swallows every exception). -/
structure DetectResult where
  info : NatInfo
  opened : Bool
  closeCalled : Bool
  deriving DecidableEq, Repr

/-- The `server_nat_info` dictionary written by the `except` branch. -/
def errorNatInfo (e : String) : NatInfo :=
  { local_ip := "Unknown"
    public_ip := "Detection failed"
    nat_type := "NAT detection failed - check server logs"
    nat_category := "error"
    has_srflx := none
    err_detail := some e }

/-- One iteration of the candidate-analysis loop over the accumulator
`(has_host, has_srflx, public_ip)`: a `"host"` candidate sets `has_host`,
a `"srflx"` candidate sets `has_srflx` and `public_ip = candidate.host`,
anything else leaves the state alone. -/
def analyzeStep (acc : Bool × Bool × Option String) (c : Candidate) :
    Bool × Bool × Option String :=
  if c.ctype = "host" then (true, acc.2.1, acc.2.2)
  else if c.ctype = "srflx" then (acc.1, true, some c.host)
  else acc

/-- The candidate-analysis loop: scans the candidate list in order,
starting from `has_host = has_srflx = False`, `public_ip = None`. -/
def analyze (cs : List Candidate) : Bool × Bool × Option String :=
  cs.foldl analyzeStep (false, false, none)

/-- The NAT-type classification from the flags
(`if has_host and not has_srflx ... elif has_host and has_srflx ... else ...`);
returns `(nat_type, nat_category)`. -/
def classify (has_host has_srflx : Bool) : String × String :=
  if has_host && !has_srflx then
    ("No NAT detected - Same network as browser", "none")
  else if has_host && has_srflx then
    ("Behind NAT (type will be determined by connection test)", "unknown")
  else
    ("Unknown network configuration", "unknown")

/-- `detect_nat_type`, step by step.  The `try` block: local-IP socket
steps (can raise), construct the `aioice.Connection` (opens the probe),
`gather_candidates()` (can raise), analyze `local_candidates`, classify,
write `server_nat_info`, `connection.close()` (can raise).  Any exception
lands in the `except` branch, which overwrites `server_nat_info` with the
error dictionary; nothing in the `except` branch closes the connection. -/
def detect_nat_type (env : ProbeEnv) : DetectResult :=
  match env.localIpResult with
  | .error e => { info := errorNatInfo e, opened := false, closeCalled := false }
  | .ok local_ip =>
    match env.gatherResult with
    | .error e => { info := errorNatInfo e, opened := true, closeCalled := false }
    | .ok _ =>
      let flags := analyze env.candidates
      let has_host := flags.1
      let has_srflx := flags.2.1
      let public_ip := flags.2.2
      let cls := classify has_host has_srflx
      let okInfo : NatInfo :=
        { local_ip := local_ip
          public_ip := public_ip.getD "Not detected"
          nat_type := cls.1
          nat_category := cls.2
          has_srflx := some has_srflx
          err_detail := none }
      match env.closeResult with
      | .ok _ => { info := okInfo, opened := true, closeCalled := true }
      | .error e => { info := errorNatInfo e, opened := true, closeCalled := true }

/-! ## Signaling endpoint (`offer`), session registry (`pcs`),
connection-state handler and shutdown hook

The session registry `pcs` is a Python `set()` of peer-connection objects;
we identify each created `RTCPeerConnection` by a fresh natural number and
model `pcs` as a `Finset Nat`. -/

/-- The finalized local description read back from the connection after
the gathering wait: its `sdp` text, its `type`, and the number of
`a=candidate` lines in the sdp
(`pc.localDescription.sdp.count('a=candidate')`). -/
structure LocalDesc where
  sdp : String
  dtype : String
  candidateCount : Nat
  deriving DecidableEq, Repr

/-- The JSON response body of a successful `POST /offer`. -/
structure OfferResponse where
  sdp : String
  rtype : String
  nat_info : Option NatInfo
  deriving DecidableEq, Repr

/-- What the external world does during one `offer` request: the parsed
JSON body's `"sdp"` and `"type"` fields (absent field = `KeyError`), the
results of the three awaited negotiation calls, and the value of
`pc.localDescription` after the 5-second gathering wait. -/
structure OfferEnv where
  sdpField : Option String
  typeField : Option String
  setRemoteDescriptionResult : Except String Unit
  createAnswerResult : Except String Unit
  setLocalDescriptionResult : Except String Unit
  localDescription : Option LocalDesc
  deriving Repr

/-- Observable events of one `offer` request, in program order. -/
inductive Ev where
  /-- `await asyncio.sleep(u)` for `u` time units. -/
  | sleep (units : Nat)
  /-- the `WARNING: No ICE candidates in SDP!` log line. -/
  | warnNoCandidates
  /-- `pc.close()` invoked on peer connection `pc`. -/
  | closePC (pc : Nat)
  deriving DecidableEq, Repr

/-- Outcome of one `offer` request: the HTTP-level result (an exception
propagating to the framework, or the JSON response), the registry and
fresh-id counter afterwards, and the event trace. -/
structure OfferOut where
  result : Except String OfferResponse
  pcs : Finset Nat
  nextId : Nat
  events : List Ev

/-- The `offer` handler.  In source order: read `params["type"]` and
`params["sdp"]` (a missing key raises before anything else happens),
construct the `RTCPeerConnection` and `pcs.add(pc)`, then
`setRemoteDescription` / `createAnswer` / `setLocalDescription` (each
awaited call may raise — there is no `try/except`, so the exception
propagates with no cleanup), then `await asyncio.sleep(5.0)`, read back
`pc.localDescription` (a `None` description faults when the response is
built), warn if it has zero candidates, and return the JSON response
carrying the description and the `server_nat_info` snapshot. -/
def offer (env : OfferEnv) (pcs : Finset Nat) (nextId : Nat)
    (server_nat_info : Option NatInfo) : OfferOut :=
  match env.typeField with
  | none => { result := .error "KeyError: type", pcs := pcs, nextId := nextId, events := [] }
  | some _ =>
    match env.sdpField with
    | none => { result := .error "KeyError: sdp", pcs := pcs, nextId := nextId, events := [] }
    | some _ =>
      let pc := nextId
      let pcs1 := insert pc pcs
      match env.setRemoteDescriptionResult with
      | .error e => { result := .error e, pcs := pcs1, nextId := nextId + 1, events := [] }
      | .ok _ =>
        match env.createAnswerResult with
        | .error e => { result := .error e, pcs := pcs1, nextId := nextId + 1, events := [] }
        | .ok _ =>
          match env.setLocalDescriptionResult with
          | .error e => { result := .error e, pcs := pcs1, nextId := nextId + 1, events := [] }
          | .ok _ =>
            match env.localDescription with
            | none =>
              { result := .error "AttributeError: NoneType has no attribute sdp"
                pcs := pcs1, nextId := nextId + 1, events := [.sleep 5] }
            | some d =>
              { result := .ok { sdp := d.sdp, rtype := d.dtype, nat_info := server_nat_info }
                pcs := pcs1, nextId := nextId + 1
                events := [.sleep 5] ++ (if d.candidateCount = 0 then [.warnNoCandidates] else []) }

/-- The `iceconnectionstatechange` handler registered on each session's
connection.  Given the new `pc.iceConnectionState` value, the session's id
and the registry, it returns the registry afterwards and whether
`pc.close()` was invoked: only `"failed"` and `"closed"` reach the inner
`if`, which runs `await pc.close()` and `pcs.discard(pc)`; every other
state (including `"disconnected"`) only logs. -/
def on_ice_connection_state_change (state : String) (pc : Nat)
    (pcs : Finset Nat) : Finset Nat × Bool :=
  if state = "connected" then (pcs, false)
  else if state = "completed" then (pcs, false)
  else if state = "failed" ∨ state = "closed" ∨ state = "disconnected" then
    if state = "failed" ∨ state = "closed" then (pcs.erase pc, true)
    else (pcs, false)
  else (pcs, false)

/-- The shutdown hook: `coros = [pc.close() for pc in pcs]`,
`await asyncio.gather(*coros)`, `pcs.clear()`.  Returns the multiset of
`pc.close()` invocations and the registry afterwards. -/
def on_shutdown (pcs : Finset Nat) : Multiset Nat × Finset Nat :=
  (pcs.val, ∅)

/-- All awaited steps of the NAT probe succeed. -/
def probeOk (env : ProbeEnv) : Prop :=
  (∃ ip, env.localIpResult = .ok ip) ∧ env.gatherResult = .ok () ∧
    env.closeResult = .ok ()

/-- A probe run that gathers one host and one reflexive candidate and
succeeds throughout. -/
def envBoth : ProbeEnv :=
  { localIpResult := .ok "192.168.1.100"
    gatherResult := .ok ()
    candidates := [⟨"host", "192.168.1.100", 12345⟩, ⟨"srflx", "203.0.113.1", 54321⟩]
    closeResult := .ok () }

/-- A probe run where `connection.gather_candidates()` raises after the
`aioice.Connection` has been constructed. -/
def envGatherFail : ProbeEnv :=
  { localIpResult := .ok "10.0.0.2"
    gatherResult := .error "Timeout waiting for STUN response"
    candidates := []
    closeResult := .ok () }

/-- An offer request whose body is well-formed but whose
`setRemoteDescription` call raises. -/
def envRemoteFail : OfferEnv :=
  { sdpField := some "v=0 dummy sdp"
    typeField := some "offer"
    setRemoteDescriptionResult := .error "ValueError: Invalid SDP"
    createAnswerResult := .ok ()
    setLocalDescriptionResult := .ok ()
    localDescription := none }

/-- An offer request whose JSON body is missing the `sdp` key. -/
def envMissingSdp : OfferEnv :=
  { sdpField := none
    typeField := some "offer"
    setRemoteDescriptionResult := .ok ()
    createAnswerResult := .ok ()
    setLocalDescriptionResult := .ok ()
    localDescription := none }

/-- A fully successful offer request whose finalized local description
contains zero `a=candidate` lines. -/
def envZeroCand : OfferEnv :=
  { sdpField := some "v=0 dummy sdp"
    typeField := some "offer"
    setRemoteDescriptionResult := .ok ()
    createAnswerResult := .ok ()
    setLocalDescriptionResult := .ok ()
    localDescription := some { sdp := "v=0 answer sdp", dtype := "answer", candidateCount := 0 } }

/-! ## Lemmas about the video source -/

namespace ColorBarsVideoTrack

/-- The counter before call `n` is `5 * n`. -/
lemma counterAfter_eq (n : Nat) : counterAfter n = 5 * n := by
  induction n with
  | zero => rfl
  | succ k ih => simp [counterAfter, recv, ih]; ring

/-- Characterization of the bars image: a column in bar `i`'s span holds
color `i` (bar 6 absorbs the remainder columns up to `width`). -/
lemma barsImg_eq (row col : Nat) :
    barsImg row col =
      if 6 * bar_width ≤ col ∧ col < width then colors.getD 6 ⟨0, 0, 0⟩
      else if 5 * bar_width ≤ col ∧ col < 6 * bar_width then colors.getD 5 ⟨0, 0, 0⟩
      else if 4 * bar_width ≤ col ∧ col < 5 * bar_width then colors.getD 4 ⟨0, 0, 0⟩
      else if 3 * bar_width ≤ col ∧ col < 4 * bar_width then colors.getD 3 ⟨0, 0, 0⟩
      else if 2 * bar_width ≤ col ∧ col < 3 * bar_width then colors.getD 2 ⟨0, 0, 0⟩
      else if 1 * bar_width ≤ col ∧ col < 2 * bar_width then colors.getD 1 ⟨0, 0, 0⟩
      else if col < bar_width then colors.getD 0 ⟨0, 0, 0⟩
      else zeros row col := by
  show (setCols (setCols (setCols (setCols (setCols (setCols (setCols zeros
      (0 * bar_width) (0 * bar_width + bar_width) (colors.getD 0 ⟨0, 0, 0⟩))
      (1 * bar_width) (1 * bar_width + bar_width) (colors.getD 1 ⟨0, 0, 0⟩))
      (2 * bar_width) (2 * bar_width + bar_width) (colors.getD 2 ⟨0, 0, 0⟩))
      (3 * bar_width) (3 * bar_width + bar_width) (colors.getD 3 ⟨0, 0, 0⟩))
      (4 * bar_width) (4 * bar_width + bar_width) (colors.getD 4 ⟨0, 0, 0⟩))
      (5 * bar_width) (5 * bar_width + bar_width) (colors.getD 5 ⟨0, 0, 0⟩))
      (6 * bar_width) width (colors.getD 6 ⟨0, 0, 0⟩)) row col = _
  simp only [setCols, bar_width, width]
  split_ifs <;> first | rfl | omega

/-- Every pixel of the bars image is one of the seven bar colors or the
initial zero pixel. -/
lemma barsImg_mem (row col : Nat) :
    barsImg row col ∈ colors ∨ barsImg row col = ⟨0, 0, 0⟩ := by
  rw [barsImg_eq]
  split_ifs <;> first | (left; decide) | (right; rfl)

/-- Every pixel of every produced frame stays in the 8-bit range. -/
lemma recvImg_le_255 (counter row col : Nat) :
    (recvImg counter row col).r ≤ 255 ∧ (recvImg counter row col).g ≤ 255 ∧
      (recvImg counter row col).b ≤ 255 := by
  unfold recvImg setCols
  split
  · exact ⟨Nat.zero_le _, Nat.zero_le _, Nat.zero_le _⟩
  · rcases barsImg_mem row col with h | h
    · simp only [colors, List.mem_cons, List.not_mem_nil, or_false] at h
      rcases h with h | h | h | h | h | h | h <;> rw [h] <;>
        exact ⟨by decide, by decide, by decide⟩
    · rw [h]; exact ⟨Nat.zero_le _, Nat.zero_le _, Nat.zero_le _⟩

end ColorBarsVideoTrack

/-! ## Claim theorems: synthetic video source -/

open ColorBarsVideoTrack in
/-- C7: for every call count `n ≥ 0` (0-indexed), the indicator's
horizontal start position is `(5·n) mod 640`; the internal counter starts
at 0 and increases by exactly 5 on every call with no clipping or
wrapping of the counter itself; the produced frame is `recvImg (5·n)`, a
pure function of the call count; and the indicator is 5 pixels wide:
every column in `[(5·n) mod 640, (5·n) mod 640 + 5)` is black. -/
theorem C7_indicator_position (n : Nat) :
    indicator_pos (counterAfter n) = (5 * n) % 640 ∧
    counterAfter 0 = 0 ∧
    counterAfter (n + 1) = counterAfter n + 5 ∧
    (recv (counterAfter n)).2 = counterAfter n + 5 ∧
    frameAt n = recvImg (5 * n) ∧
    (∀ row col, indicator_pos (counterAfter n) ≤ col →
      col < indicator_pos (counterAfter n) + 5 →
      frameAt n row col = ⟨0, 0, 0⟩) := by
  have hpos : counterAfter n = 5 * n := counterAfter_eq n
  refine ⟨by rw [hpos]; rfl, rfl, rfl, rfl, ?_, ?_⟩
  · show recvImg (counterAfter n) = recvImg (5 * n)
    rw [hpos]
  · intro row col h1 h2
    have hlt : col < min (indicator_pos (counterAfter n) + 5) width := by
      refine lt_min_iff.mpr ⟨h2, lt_of_lt_of_le h2 ?_⟩
      rw [hpos]
      simp only [indicator_pos, width]
      omega
    show setCols barsImg (indicator_pos (counterAfter n))
        (min (indicator_pos (counterAfter n) + 5) width) ⟨0, 0, 0⟩ row col = ⟨0, 0, 0⟩
    unfold setCols
    rw [if_pos ⟨h1, hlt⟩]

open ColorBarsVideoTrack in
/-- C7 witness: at call 1 the indicator starts at `(5·1) mod 640 = 5` and
column 7 of the frame is black. -/
theorem C7_indicator_position_witness :
    indicator_pos (counterAfter 1) = (5 * 1) % 640 ∧
    frameAt 1 0 7 = ⟨0, 0, 0⟩ :=
  ⟨(C7_indicator_position 1).1,
   (C7_indicator_position 1).2.2.2.2.2 0 7 (by decide) (by decide)⟩

open ColorBarsVideoTrack in
/-- C8: every frame is 640×480 with three 8-bit channels; the bars layer
assigns bar `i` (white, yellow, cyan, green, magenta, red, blue for
`i = 0..6`) to the columns `[i·⌊640/7⌋, (i+1)·⌊640/7⌋)` for `i < 6`, and
bar 6 to `[6·⌊640/7⌋, 640)`, the last bar absorbing the remainder. -/
theorem C8_color_bar_layout (i row col : Nat) (hi : i < 7)
    (hlo : i * bar_width ≤ col)
    (hhi : col < if i < 6 then (i + 1) * bar_width else width) :
    width = 640 ∧ height = 480 ∧ bar_width = 640 / 7 ∧
    colors = [⟨255, 255, 255⟩, ⟨255, 255, 0⟩, ⟨0, 255, 255⟩, ⟨0, 255, 0⟩,
      ⟨255, 0, 255⟩, ⟨255, 0, 0⟩, ⟨0, 0, 255⟩] ∧
    barsImg row col = colors.getD i ⟨0, 0, 0⟩ ∧
    (∀ n r c, (frameAt n r c).r ≤ 255 ∧ (frameAt n r c).g ≤ 255 ∧
      (frameAt n r c).b ≤ 255) := by
  refine ⟨rfl, rfl, rfl, rfl, ?_, fun n r c => recvImg_le_255 (counterAfter n) r c⟩
  rw [barsImg_eq]
  simp only [bar_width, width] at hlo hhi ⊢
  interval_cases i <;> simp only [show (0:Nat) < 6 by decide, show (1:Nat) < 6 by decide,
      show (2:Nat) < 6 by decide, show (3:Nat) < 6 by decide, show (4:Nat) < 6 by decide,
      show (5:Nat) < 6 by decide, if_true, lt_irrefl, if_false] at hhi <;>
    split_ifs <;> first | rfl | omega

open ColorBarsVideoTrack in
/-- C8 witness: column 100 lies in bar 1 and is yellow; frame pixels are
8-bit. -/
theorem C8_color_bar_layout_witness :
    barsImg 0 100 = colors.getD 1 ⟨0, 0, 0⟩ ∧
    (frameAt 0 0 0).r ≤ 255 :=
  ⟨(C8_color_bar_layout 1 0 100 (by decide) (by decide) (by decide)).2.2.2.2.1,
   ((C8_color_bar_layout 1 0 100 (by decide) (by decide) (by decide)).2.2.2.2.2 0 0 0).1⟩

open ColorBarsVideoTrack in
/-- C10 (implicit): the indicator position is always a multiple of 5,
`position + 5 ≤ 640` on every call, and the right-edge clip
`min (position + 5) width` never truncates — the full 5-pixel indicator
lies inside the frame. -/
theorem C10_clipping_unreachable (n : Nat) :
    indicator_pos (counterAfter n) % 5 = 0 ∧
    indicator_pos (counterAfter n) + 5 ≤ width ∧
    min (indicator_pos (counterAfter n) + 5) width =
      indicator_pos (counterAfter n) + 5 := by
  rw [counterAfter_eq]
  simp only [indicator_pos, width]
  refine ⟨by omega, by omega, min_eq_left (by omega)⟩

/-! ## Lemmas about the NAT classifier's analysis loop -/

/-- Fold invariant of the candidate-analysis loop: `has_host` becomes true
iff it was or some candidate is a `"host"`; `has_srflx` likewise for
`"srflx"`; and `public_ip` is either untouched (when no `"srflx"`
candidate occurs) or the host of some `"srflx"` candidate. -/
lemma analyze_foldl_spec (cs : List Candidate) :
    ∀ acc : Bool × Bool × Option String,
      ((cs.foldl analyzeStep acc).1 = (acc.1 || cs.any fun c => c.ctype = "host")) ∧
      ((cs.foldl analyzeStep acc).2.1 = (acc.2.1 || cs.any fun c => c.ctype = "srflx")) ∧
      (((∀ c ∈ cs, ¬ c.ctype = "srflx") ∧ (cs.foldl analyzeStep acc).2.2 = acc.2.2) ∨
        ∃ c ∈ cs, c.ctype = "srflx" ∧ (cs.foldl analyzeStep acc).2.2 = some c.host) := by
  induction cs with
  | nil => intro acc; simp
  | cons c cs ih =>
    intro acc
    obtain ⟨ih1, ih2, ih3⟩ := ih (analyzeStep acc c)
    refine ⟨?_, ?_, ?_⟩
    · simp only [List.foldl_cons, List.any_cons, ih1]
      by_cases h1 : c.ctype = "host" <;> by_cases h2 : c.ctype = "srflx" <;>
        simp [analyzeStep, h1, h2, Bool.or_assoc, Bool.or_comm, Bool.or_left_comm]
    · simp only [List.foldl_cons, List.any_cons, ih2]
      by_cases h1 : c.ctype = "host" <;> by_cases h2 : c.ctype = "srflx" <;>
        simp [analyzeStep, h1, h2, Bool.or_assoc, Bool.or_comm, Bool.or_left_comm]
    · simp only [List.foldl_cons]
      rcases ih3 with ⟨hall, hval⟩ | ⟨d, hd, hds, hval⟩
      · by_cases h1 : c.ctype = "host"
        · left
          refine ⟨?_, ?_⟩
          · intro x hx
            rcases List.mem_cons.mp hx with rfl | hx
            · rw [h1]; decide
            · exact hall x hx
          · rw [hval]; simp [analyzeStep, h1]
        · by_cases h2 : c.ctype = "srflx"
          · right
            exact ⟨c, List.mem_cons_self c cs, h2, by rw [hval]; simp [analyzeStep, h1, h2]⟩
          · left
            refine ⟨?_, ?_⟩
            · intro x hx
              rcases List.mem_cons.mp hx with rfl | hx
              · exact h2
              · exact hall x hx
            · rw [hval]; simp [analyzeStep, h1, h2]
      · right
        exact ⟨d, List.mem_cons_of_mem c hd, hds, hval⟩

/-- `has_host` is set exactly when some candidate has type `"host"`. -/
lemma analyze_host_iff (cs : List Candidate) :
    (analyze cs).1 = true ↔ ∃ c ∈ cs, c.ctype = "host" := by
  have h := (analyze_foldl_spec cs (false, false, none)).1
  rw [analyze, h]
  simp [List.any_eq_true]

/-- `has_srflx` is set exactly when some candidate has type `"srflx"`. -/
lemma analyze_srflx_iff (cs : List Candidate) :
    (analyze cs).2.1 = true ↔ ∃ c ∈ cs, c.ctype = "srflx" := by
  have h := (analyze_foldl_spec cs (false, false, none)).2.1
  rw [analyze, h]
  simp [List.any_eq_true]

/-- When `has_srflx` is set, `public_ip` is the host of some `"srflx"`
candidate. -/
lemma analyze_public_ip (cs : List Candidate) (h : (analyze cs).2.1 = true) :
    ∃ c ∈ cs, c.ctype = "srflx" ∧ (analyze cs).2.2 = some c.host := by
  rcases (analyze_foldl_spec cs (false, false, none)).2.2 with ⟨hall, _⟩ | hex
  · obtain ⟨c, hc, hcs⟩ := (analyze_srflx_iff cs).mp h
    exact absurd hcs (hall c hc)
  · exact hex

/-! ## Claim theorems: NAT classifier -/

/-- C3: when every probe step succeeds, a candidate set with a host-type
candidate and no reflexive candidate is classified `none`; with both, it
is classified `unknown` with `has_srflx = true` and the public address
taken from a reflexive candidate; with neither, it is classified
`unknown`.  When any probe step throws, the classification is `error`
with the exception detail attached, and `detect_nat_type` still returns a
result (the exception never escapes). -/
theorem C3_nat_classification (env : ProbeEnv) :
    (probeOk env →
      ((∃ c ∈ env.candidates, c.ctype = "host") ∧
          (¬ ∃ c ∈ env.candidates, c.ctype = "srflx") →
        (detect_nat_type env).info.nat_category = "none") ∧
      ((∃ c ∈ env.candidates, c.ctype = "host") ∧
          (∃ c ∈ env.candidates, c.ctype = "srflx") →
        (detect_nat_type env).info.nat_category = "unknown" ∧
        (detect_nat_type env).info.has_srflx = some true ∧
        ∃ c ∈ env.candidates, c.ctype = "srflx" ∧
          (detect_nat_type env).info.public_ip = c.host) ∧
      ((¬ ∃ c ∈ env.candidates, c.ctype = "host") ∧
          (¬ ∃ c ∈ env.candidates, c.ctype = "srflx") →
        (detect_nat_type env).info.nat_category = "unknown")) ∧
    (¬ probeOk env →
      (detect_nat_type env).info.nat_category = "error" ∧
      ∃ e, (detect_nat_type env).info.err_detail = some e) := by
  obtain ⟨lir, gr, cs, cr⟩ := env
  constructor
  · rintro ⟨⟨ip, hip⟩, hg, hc⟩
    simp only at hip hg hc
    subst hip; subst hg; subst hc
    refine ⟨?_, ?_, ?_⟩
    · rintro ⟨hh, hs⟩
      have h1 : (analyze cs).1 = true := (analyze_host_iff cs).mpr hh
      have h2 : (analyze cs).2.1 = false := by
        rcases Bool.eq_false_or_eq_true (analyze cs).2.1 with h | h
        · exact absurd ((analyze_srflx_iff cs).mp h) hs
        · exact h
      simp [detect_nat_type, classify, h1, h2]
    · rintro ⟨hh, hs⟩
      have h1 : (analyze cs).1 = true := (analyze_host_iff cs).mpr hh
      have h2 : (analyze cs).2.1 = true := (analyze_srflx_iff cs).mpr hs
      obtain ⟨c, hc2, hcs, hval⟩ := analyze_public_ip cs h2
      refine ⟨?_, ?_, ⟨c, hc2, hcs, ?_⟩⟩
      · simp [detect_nat_type, classify, h1, h2]
      · simp [detect_nat_type, h2]
      · simp [detect_nat_type, hval]
    · rintro ⟨hh, hs⟩
      have h1 : (analyze cs).1 = false := by
        rcases Bool.eq_false_or_eq_true (analyze cs).1 with h | h
        · exact absurd ((analyze_host_iff cs).mp h) hh
        · exact h
      have h2 : (analyze cs).2.1 = false := by
        rcases Bool.eq_false_or_eq_true (analyze cs).2.1 with h | h
        · exact absurd ((analyze_srflx_iff cs).mp h) hs
        · exact h
      simp [detect_nat_type, classify, h1, h2]
  · intro hbad
    rcases lir with e | ip
    · exact ⟨by simp [detect_nat_type, errorNatInfo], e,
        by simp [detect_nat_type, errorNatInfo]⟩
    · rcases gr with e | u
      · exact ⟨by simp [detect_nat_type, errorNatInfo], e,
          by simp [detect_nat_type, errorNatInfo]⟩
      · cases u
        rcases cr with e | u
        · exact ⟨by simp [detect_nat_type, errorNatInfo], e,
            by simp [detect_nat_type, errorNatInfo]⟩
        · cases u
          exact absurd ⟨⟨ip, rfl⟩, rfl, rfl⟩ hbad

/-- C3 witness: the successful probe gathering one host and one reflexive
candidate is classified `unknown` with `has_srflx = some true`, and the
public address is the reflexive candidate's host. -/
theorem C3_nat_classification_witness :
    (detect_nat_type envBoth).info.nat_category = "unknown" ∧
    (detect_nat_type envBoth).info.has_srflx = some true := by
  have h := ((C3_nat_classification envBoth).1 ⟨⟨"192.168.1.100", rfl⟩, rfl, rfl⟩).2.1
    ⟨⟨⟨"host", "192.168.1.100", 12345⟩, by decide, rfl⟩,
     ⟨⟨"srflx", "203.0.113.1", 54321⟩, by decide, rfl⟩⟩
  exact ⟨h.1, h.2.1⟩

/-- C4 counterexample: when `gather_candidates()` raises after the probe
connection was opened, `detect_nat_type` never invokes
`connection.close()` — the probe session is not released on that path. -/
theorem C4_close_counterexample :
    (detect_nat_type envGatherFail).opened = true ∧
    (detect_nat_type envGatherFail).closeCalled = false := ⟨rfl, rfl⟩

/-- C4 (amended): the probe connection is opened iff the local-IP step
succeeds, and `connection.close()` is invoked iff both the local-IP step
and candidate gathering succeed — on any exception after the probe is
opened, the connection is never closed (there is no `finally`). -/
theorem C4_close_on_success_only (env : ProbeEnv) :
    ((detect_nat_type env).closeCalled = true ↔
      (∃ ip, env.localIpResult = .ok ip) ∧ env.gatherResult = .ok ()) ∧
    ((detect_nat_type env).opened = true ↔ ∃ ip, env.localIpResult = .ok ip) := by
  obtain ⟨lir, gr, cs, cr⟩ := env
  rcases lir with e | ip
  · simp [detect_nat_type]
  · rcases gr with e | u
    · simp [detect_nat_type]
    · cases u
      rcases cr with e | u
      · simp [detect_nat_type]
      · cases u
        simp [detect_nat_type]

/-! ## Claim theorems: signaling endpoint, registry, shutdown -/

/-- C1 counterexample: a concrete offer request whose
`setRemoteDescription` raises, sent against an empty registry.  The error
propagates, but the partially-created session is NOT torn down: the
registry afterwards is `{0}` (not unchanged), and `pc.close()` is never
invoked. -/
theorem C1_orphan_counterexample :
    (∃ e, (offer envRemoteFail ∅ 0 none).result = .error e) ∧
    (offer envRemoteFail ∅ 0 none).pcs = {0} ∧
    (offer envRemoteFail ∅ 0 none).pcs ≠ (∅ : Finset Nat) ∧
    (offer envRemoteFail ∅ 0 none).events = [] :=
  ⟨⟨"ValueError: Invalid SDP", rfl⟩, rfl, by decide, rfl⟩

/-- C1 (amended): if an exception is raised while applying the remote
description or creating/applying the local description, the error does
propagate to the caller, but the partially-created session is not torn
down: it stays in the registry (which gains one entry) and its connection
capability is never released (no `pc.close()` event on this path). -/
theorem C1_failed_offer_keeps_session (env : OfferEnv) (pcs0 : Finset Nat)
    (nextId : Nat) (ni : Option NatInfo) (t s : String)
    (ht : env.typeField = some t) (hs : env.sdpField = some s)
    (hfail : (∃ e, env.setRemoteDescriptionResult = .error e) ∨
      (env.setRemoteDescriptionResult = .ok () ∧
        ∃ e, env.createAnswerResult = .error e) ∨
      (env.setRemoteDescriptionResult = .ok () ∧ env.createAnswerResult = .ok () ∧
        ∃ e, env.setLocalDescriptionResult = .error e)) :
    (∃ e, (offer env pcs0 nextId ni).result = .error e) ∧
    (offer env pcs0 nextId ni).pcs = insert nextId pcs0 ∧
    nextId ∈ (offer env pcs0 nextId ni).pcs ∧
    (offer env pcs0 nextId ni).events = [] := by
  rcases hfail with ⟨e, he⟩ | ⟨h1, e, he⟩ | ⟨h1, h2, e, he⟩
  · refine ⟨⟨e, ?_⟩, ?_, ?_, ?_⟩ <;> simp [offer, ht, hs, he]
  · refine ⟨⟨e, ?_⟩, ?_, ?_, ?_⟩ <;> simp [offer, ht, hs, h1, he]
  · refine ⟨⟨e, ?_⟩, ?_, ?_, ?_⟩ <;> simp [offer, ht, hs, h1, h2, he]

/-- C1 witness: the amended statement at the concrete failing request. -/
theorem C1_failed_offer_keeps_session_witness :
    (∃ e, (offer envRemoteFail ∅ 0 none).result = .error e) ∧
    (offer envRemoteFail ∅ 0 none).pcs = insert 0 ∅ ∧
    0 ∈ (offer envRemoteFail ∅ 0 none).pcs ∧
    (offer envRemoteFail ∅ 0 none).events = [] :=
  C1_failed_offer_keeps_session envRemoteFail ∅ 0 none "offer" "v=0 dummy sdp"
    rfl rfl (Or.inl ⟨"ValueError: Invalid SDP", rfl⟩)

/-- C2: a connection-state-change notification with new state `"failed"`
or `"closed"` closes the session's connection and removes it from the
registry; a `"disconnected"` notification alone never closes the session
and never removes it (it is only logged). -/
theorem C2_state_change_policy (state : String) (pc : Nat) (pcs0 : Finset Nat) :
    ((state = "failed" ∨ state = "closed") →
      on_ice_connection_state_change state pc pcs0 = (pcs0.erase pc, true)) ∧
    (state = "disconnected" →
      on_ice_connection_state_change state pc pcs0 = (pcs0, false)) := by
  constructor
  · rintro (rfl | rfl) <;> rfl
  · rintro rfl; rfl

/-- C2 witness: the policy at concrete states and the registry `{7}`. -/
theorem C2_state_change_policy_witness :
    on_ice_connection_state_change "failed" 7 {7} = (Finset.erase {7} 7, true) ∧
    on_ice_connection_state_change "disconnected" 7 {7} = ({7}, false) :=
  ⟨(C2_state_change_policy "failed" 7 {7}).1 (Or.inl rfl),
   (C2_state_change_policy "disconnected" 7 {7}).2 rfl⟩

/-- C5: a `POST /offer` request whose body is missing the `sdp` key (or
the `type` key) raises before the peer connection is constructed: the
result is an error, the registry and the fresh-session counter are
unchanged, and nothing else happens. -/
theorem C5_missing_field_no_session (env : OfferEnv) (pcs0 : Finset Nat)
    (nextId : Nat) (ni : Option NatInfo)
    (h : env.sdpField = none ∨ env.typeField = none) :
    (∃ e, (offer env pcs0 nextId ni).result = .error e) ∧
    (offer env pcs0 nextId ni).pcs = pcs0 ∧
    (offer env pcs0 nextId ni).nextId = nextId ∧
    (offer env pcs0 nextId ni).events = [] := by
  rcases h with h | h
  · rcases htf : env.typeField with _ | t
    · refine ⟨⟨"KeyError: type", ?_⟩, ?_, ?_, ?_⟩ <;> simp [offer, htf]
    · refine ⟨⟨"KeyError: sdp", ?_⟩, ?_, ?_, ?_⟩ <;> simp [offer, htf, h]
  · refine ⟨⟨"KeyError: type", ?_⟩, ?_, ?_, ?_⟩ <;> simp [offer, h]

/-- C5 witness: the statement at a concrete body missing `sdp`, against
the registry `{4}`. -/
theorem C5_missing_field_no_session_witness :
    (∃ e, (offer envMissingSdp {4} 5 none).result = .error e) ∧
    (offer envMissingSdp {4} 5 none).pcs = {4} ∧
    (offer envMissingSdp {4} 5 none).nextId = 5 ∧
    (offer envMissingSdp {4} 5 none).events = [] :=
  C5_missing_field_no_session envMissingSdp {4} 5 none (Or.inl rfl)

/-- C6: on the success path the handler sleeps exactly 5 time units
(before the finalized local description is read back and returned), and a
finalized description with zero `a=candidate` lines is still returned as
a normal success response — the only extra effect is the warning log
event, never an error. -/
theorem C6_wait_and_degraded_success (env : OfferEnv) (pcs0 : Finset Nat)
    (nextId : Nat) (ni : Option NatInfo) (t s : String) (d : LocalDesc)
    (ht : env.typeField = some t) (hs : env.sdpField = some s)
    (h1 : env.setRemoteDescriptionResult = .ok ())
    (h2 : env.createAnswerResult = .ok ())
    (h3 : env.setLocalDescriptionResult = .ok ())
    (hd : env.localDescription = some d) :
    (offer env pcs0 nextId ni).events =
      .sleep 5 :: (if d.candidateCount = 0 then [.warnNoCandidates] else []) ∧
    (offer env pcs0 nextId ni).result =
      .ok { sdp := d.sdp, rtype := d.dtype, nat_info := ni } ∧
    (d.candidateCount = 0 →
      Ev.warnNoCandidates ∈ (offer env pcs0 nextId ni).events ∧
      ∃ resp, (offer env pcs0 nextId ni).result = .ok resp) := by
  refine ⟨?_, ?_, ?_⟩
  · simp [offer, ht, hs, h1, h2, h3, hd]
  · simp [offer, ht, hs, h1, h2, h3, hd]
  · intro hzero
    constructor
    · simp [offer, ht, hs, h1, h2, h3, hd, hzero]
    · exact ⟨{ sdp := d.sdp, rtype := d.dtype, nat_info := ni },
        by simp [offer, ht, hs, h1, h2, h3, hd]⟩

/-- C6 witness: the concrete zero-candidate success request sleeps 5
units, warns, and still returns the description. -/
theorem C6_wait_and_degraded_success_witness :
    (offer envZeroCand ∅ 0 none).events = [Ev.sleep 5, Ev.warnNoCandidates] ∧
    (offer envZeroCand ∅ 0 none).result =
      .ok { sdp := "v=0 answer sdp", rtype := "answer", nat_info := none } := by
  have h := C6_wait_and_degraded_success envZeroCand ∅ 0 none "offer" "v=0 dummy sdp"
    { sdp := "v=0 answer sdp", dtype := "answer", candidateCount := 0 }
    rfl rfl rfl rfl rfl rfl
  exact ⟨h.1, h.2.1⟩

/-- C9: shutdown with zero registered sessions completes without error
(no close calls, empty registry); shutdown with any registered session
set invokes `pc.close()` exactly once per registered session and leaves
the registry empty. -/
theorem C9_shutdown_closes_each_once (s : Finset Nat) :
    on_shutdown (∅ : Finset Nat) = (0, ∅) ∧
    (on_shutdown s).2 = ∅ ∧
    (∀ pc ∈ s, (on_shutdown s).1.count pc = 1) ∧
    (∀ pc, pc ∉ s → (on_shutdown s).1.count pc = 0) := by
  refine ⟨rfl, rfl, ?_, ?_⟩
  · intro pc hpc
    exact Multiset.count_eq_one_of_mem s.nodup hpc
  · intro pc hpc
    exact Multiset.count_eq_zero_of_not_mem hpc

/-- C9 witness: shutting down with registry `{3}` closes session 3 exactly
once and empties the registry. -/
theorem C9_shutdown_closes_each_once_witness :
    (on_shutdown {3}).1.count 3 = 1 ∧ (on_shutdown {3}).2 = ∅ :=
  ⟨(C9_shutdown_closes_each_once {3}).2.2.1 3 (by decide),
   (C9_shutdown_closes_each_once {3}).2.1⟩

end WebrtcDemo
